import Mathlib

/-!
Shallow embedding of `src/legacy/conversation_database.py` (class
`ZepConversationDB`), a thin HTTP client over the Zep conversational-memory
service.  Every client method issues exactly one HTTP request; we embed each
method as a pure function of the client configuration, the method arguments,
and the service's response to that single request.  The function returns the
list of HTTP requests issued together with the result of the Python call:
`Except (HTTPError α) β`, where an `HTTPError` is the exception raised by
`response.raise_for_status()` (carrying the response's status and body).

Free-form JSON dictionaries (`metadata`) are modelled as association lists of
strings; the client never inspects them.  Python `None` defaults become
`Option`; `uuid.uuid4().hex[:8]` and `datetime.now()` are modelled as explicit
entropy/clock inputs, since the client only threads those values through.
-/

/-- Free-form metadata dictionary (opaque to the client). -/
abbrev Meta := List (String × String)

/-- One formatted message exactly as the client places it into a request body:
`{"role": .., "role_type": .., "content": .., "metadata": ..}`. -/
structure FormattedMessage where
  role : String
  role_type : String
  content : String
  metadata : Meta
deriving Repr, DecidableEq

/-- A caller-supplied message dict for `add_conversation_batch`.  `metadata`
is `none` when the key is absent (so `msg.get("metadata", {})` yields `{}`);
`role_type` is a key the caller may supply but the client never reads. -/
structure InputMessage where
  role : String
  content : String
  metadata : Option Meta := none
  role_type : Option String := none
deriving Repr, DecidableEq

/-- JSON body of the `POST /users` request built by `create_user`. -/
structure UserData where
  user_id : String
  email : Option String
  first_name : Option String
  last_name : Option String
  metadata : Meta
deriving Repr, DecidableEq

/-- JSON body of the `POST /sessions` request built by `create_conversation`. -/
structure SessionData where
  user_id : String
  session_id : String
  metadata : Meta
deriving Repr, DecidableEq

/-- Request bodies the client can send. -/
inductive Body where
  | empty
  | user (u : UserData)
  | session (s : SessionData)
  | messages (msgs : List FormattedMessage)
deriving Repr, DecidableEq

/-- One HTTP request as issued through the `requests` library. -/
structure Request where
  method : String
  url : String
  headers : List (String × String)
  body : Body
deriving Repr, DecidableEq

/-- An HTTP response: status code plus the decoded JSON body (typed per
endpoint, since the client returns `response.json()` verbatim). -/
structure Response (α : Type) where
  status : Nat
  body : α
deriving Repr, DecidableEq

/-- The `requests.HTTPError` raised by `raise_for_status`: it carries the
offending response, i.e. the original status code and body. -/
structure HTTPError (α : Type) where
  status : Nat
  body : α
deriving Repr, DecidableEq

/-- `requests.Response.raise_for_status()`: raises `HTTPError` exactly when
the status code is a 4xx or 5xx (`400 <= status < 600`); any other status
(1xx, 2xx, 3xx) passes through. -/
def raise_for_status {α : Type} (r : Response α) : Except (HTTPError α) (Response α) :=
  if 400 ≤ r.status ∧ r.status < 600 then Except.error ⟨r.status, r.body⟩ else Except.ok r

/-- The client: configuration fixed at construction (`__init__`). -/
structure ZepConversationDB where
  base_url : String
  headers : List (String × String)
deriving Repr, DecidableEq

/-- `ZepConversationDB.__init__`: stores the base URL and the two headers. -/
def ZepConversationDB.init (base_url api_key : String) : ZepConversationDB :=
  { base_url := base_url
  , headers := [("Authorization", "Api-Key " ++ api_key), ("Content-Type", "application/json")] }

/-- `create_user`: POST `{base_url}/users` with the user record
(`metadata or {}` defaults a missing metadata dict to `{}`), then
`raise_for_status` and return `response.json()`. -/
def ZepConversationDB.create_user {α : Type} (db : ZepConversationDB) (user_id : String)
    (email first_name last_name : Option String) (metadata : Option Meta)
    (response : Response α) : List Request × Except (HTTPError α) α :=
  let user_data : UserData :=
    { user_id := user_id, email := email, first_name := first_name
    , last_name := last_name, metadata := metadata.getD [] }
  let req : Request :=
    { method := "POST", url := db.base_url ++ "/users", headers := db.headers
    , body := Body.user user_data }
  ([req], (raise_for_status response).map (fun r => r.body))

/-- The session id `create_conversation` decides on before issuing its
request: `if not session_id: session_id = f"conv-\x7buuid.uuid4().hex[:8]\x7d"`.
Python truthiness regenerates the id when it is `None` or the empty string;
`fresh` models the 8 random hex characters. -/
def session_id_for (session_id : Option String) (fresh : String) : String :=
  match session_id with
  | none => "conv-" ++ fresh
  | some s => if s = "" then "conv-" ++ fresh else s

/-- `create_conversation`: decide the session id, POST `{base_url}/sessions`,
`raise_for_status`, and return the decided session id (not anything from the
response payload). -/
def ZepConversationDB.create_conversation {α : Type} (db : ZepConversationDB) (user_id : String)
    (session_id : Option String) (metadata : Option Meta) (fresh : String)
    (response : Response α) : List Request × Except (HTTPError α) String :=
  let sid := session_id_for session_id fresh
  let session_data : SessionData :=
    { user_id := user_id, session_id := sid, metadata := metadata.getD [] }
  let req : Request :=
    { method := "POST", url := db.base_url ++ "/sessions", headers := db.headers
    , body := Body.session session_data }
  ([req], (raise_for_status response).map (fun _ => sid))

/-- `add_message`: builds the one-element `messages` body inline —
`{"role": role, "role_type": role, "content": content, "metadata": metadata or {}}` —
POSTs it to `{base_url}/sessions/{session_id}/memory` and returns
`response.json()` after `raise_for_status`. -/
def ZepConversationDB.add_message {α : Type} (db : ZepConversationDB) (session_id : String)
    (role content : String) (metadata : Option Meta)
    (response : Response α) : List Request × Except (HTTPError α) α :=
  let message_data : List FormattedMessage :=
    [{ role := role, role_type := role, content := content, metadata := metadata.getD [] }]
  let req : Request :=
    { method := "POST", url := db.base_url ++ "/sessions/" ++ session_id ++ "/memory"
    , headers := db.headers, body := Body.messages message_data }
  ([req], (raise_for_status response).map (fun r => r.body))

/-- The per-message formatting loop of `add_conversation_batch`: reads only
`msg["role"]`, `msg["content"]` and `msg.get("metadata", {})`; sets
`role_type` from `msg["role"]` (a caller-supplied `role_type` is ignored). -/
def format_message (msg : InputMessage) : FormattedMessage :=
  { role := msg.role, role_type := msg.role, content := msg.content
  , metadata := msg.metadata.getD [] }

/-- `add_conversation_batch`: formats every caller message in order into one
`{"messages": [...]}` body, POSTs it once to
`{base_url}/sessions/{session_id}/memory`, and returns `response.json()`
after `raise_for_status`. -/
def ZepConversationDB.add_conversation_batch {α : Type} (db : ZepConversationDB)
    (session_id : String) (messages : List InputMessage)
    (response : Response α) : List Request × Except (HTTPError α) α :=
  let formatted_messages := messages.map format_message
  let req : Request :=
    { method := "POST", url := db.base_url ++ "/sessions/" ++ session_id ++ "/memory"
    , headers := db.headers, body := Body.messages formatted_messages }
  ([req], (raise_for_status response).map (fun r => r.body))

/-- The JSON object returned by the service's context endpoint as the client
reads it: `get_conversation_summary` accesses the keys `messages`,
`relevant_facts` and `context` with `.get(..., default)`, so each field is
optional here (`none` = key absent). -/
structure ContextSnapshot where
  messages : Option (List FormattedMessage)
  relevant_facts : Option (List String)
  context : Option String
deriving Repr, DecidableEq

/-- `get_conversation_context`: GET
`{base_url}/sessions/{session_id}/memory?lastn={last_n}`, `raise_for_status`,
return `response.json()` verbatim. -/
def ZepConversationDB.get_conversation_context (db : ZepConversationDB) (session_id : String)
    (last_n : Nat) (response : Response ContextSnapshot) :
    List Request × Except (HTTPError ContextSnapshot) ContextSnapshot :=
  let req : Request :=
    { method := "GET"
    , url := db.base_url ++ "/sessions/" ++ session_id ++ "/memory?lastn=" ++ toString last_n
    , headers := db.headers, body := Body.empty }
  ([req], (raise_for_status response).map (fun r => r.body))

/-- `get_user_conversations`: GET `{base_url}/users/{user_id}/sessions`,
`raise_for_status`, return `response.json()`. -/
def ZepConversationDB.get_user_conversations {α : Type} (db : ZepConversationDB)
    (user_id : String) (response : Response α) : List Request × Except (HTTPError α) α :=
  let req : Request :=
    { method := "GET", url := db.base_url ++ "/users/" ++ user_id ++ "/sessions"
    , headers := db.headers, body := Body.empty }
  ([req], (raise_for_status response).map (fun r => r.body))

/-- `search_conversations`: calls `get_user_conversations(user_id)` and
returns its result; the `query` argument is never read. -/
def ZepConversationDB.search_conversations {α : Type} (db : ZepConversationDB)
    (user_id : String) (query : String) (response : Response α) :
    List Request × Except (HTTPError α) α :=
  let conversations := db.get_user_conversations user_id response
  conversations

/-- The summary dict built by `get_conversation_summary`. -/
structure Summary where
  session_id : String
  message_count : Nat
  relevant_facts : List String
  context : String
  last_updated : String
deriving Repr, DecidableEq

/-- `get_conversation_summary`: one `get_conversation_context(session_id)`
call (default `last_n = 10`), then a dict built from that context with
`datetime.now().isoformat()` — modelled by the explicit clock input `now` —
as `last_updated`. -/
def ZepConversationDB.get_conversation_summary (db : ZepConversationDB) (session_id : String)
    (response : Response ContextSnapshot) (now : String) :
    List Request × Except (HTTPError ContextSnapshot) Summary :=
  let contextCall := db.get_conversation_context session_id 10 response
  (contextCall.1, contextCall.2.map (fun context =>
    { session_id := session_id
    , message_count := (context.messages.getD []).length
    , relevant_facts := context.relevant_facts.getD []
    , context := context.context.getD ""
    , last_updated := now }))

/-- Modelled from the spec: the external memory service's per-session message
store (the service itself is not in this repository).  `POST
/sessions/{sid}/memory` appends the request's messages, in body order, to the
session's append-only message list. -/
def appendMessages (stored new : List FormattedMessage) : List FormattedMessage :=
  stored ++ new

/-- Modelled from the spec: the external service's context retrieval (not in
this repository) returns a snapshot holding the most recent `last_n` stored
messages plus derived facts and a summary string (both opaque here). -/
def contextOf (stored : List FormattedMessage) (last_n : Nat)
    (facts : List String) (summaryText : String) : ContextSnapshot :=
  { messages := some (stored.drop (stored.length - last_n))
  , relevant_facts := some facts
  , context := some summaryText }

/-- C1: `add_conversation_batch` issues exactly one request; its body's
messages array has the caller's length and its i-th entry is built from the
i-th caller message; and under the spec's service model, appending that array
to any previously stored messages and retrieving context with `last_n ≥ n`
returns the batch as the final segment, in the same relative order. -/
theorem add_batch_single_request_preserves_order {α : Type} (db : ZepConversationDB)
    (sid : String) (msgs : List InputMessage) (response : Response α)
    (pre : List FormattedMessage) (k : Nat) (facts : List String) (summaryText : String)
    (hk : msgs.length ≤ k) :
    (db.add_conversation_batch sid msgs response).1.length = 1 ∧
    ∀ r ∈ (db.add_conversation_batch sid msgs response).1, ∃ fmtd,
      r.body = Body.messages fmtd ∧
      fmtd.length = msgs.length ∧
      (∀ i : Nat, fmtd[i]? = (msgs[i]?).map format_message) ∧
      ∃ skipped, (contextOf (appendMessages pre fmtd) k facts summaryText).messages
        = some (skipped ++ fmtd) := by
  refine ⟨rfl, ?_⟩
  intro r hr
  simp only [ZepConversationDB.add_conversation_batch, List.mem_singleton] at hr
  subst hr
  refine ⟨msgs.map format_message, rfl, List.length_map _ _, ?_, ?_⟩
  · intro i
    exact List.getElem?_map format_message msgs i
  · refine ⟨pre.drop ((pre.length + msgs.length) - k), ?_⟩
    simp only [contextOf, appendMessages, List.length_append, List.length_map]
    rw [List.drop_append_of_le_length]
    omega

/-- Witness for C1 at a concrete two-message batch with one previously stored
message and `last_n = 3`. -/
theorem add_batch_single_request_preserves_order_witness :
    let db := ZepConversationDB.init "http://localhost:8000/api/v2" "zep-local-secret-key-12345"
    let msgs : List InputMessage := [⟨"user", "hello", none, none⟩, ⟨"assistant", "hi", none, none⟩]
    (db.add_conversation_batch "s1" msgs (Response.mk 200 ())).1.length = 1 ∧
    ∀ r ∈ (db.add_conversation_batch "s1" msgs (Response.mk 200 ())).1, ∃ fmtd,
      r.body = Body.messages fmtd ∧
      fmtd.length = msgs.length ∧
      (∀ i : Nat, fmtd[i]? = (msgs[i]?).map format_message) ∧
      ∃ skipped, (contextOf (appendMessages [⟨"user", "user", "old", []⟩] fmtd) 3 [] "").messages
        = some (skipped ++ fmtd) :=
  add_batch_single_request_preserves_order _ "s1" _ _ _ 3 [] "" (by decide)

/-- C3: `search_conversations` issues exactly the request of
`get_user_conversations` and returns exactly its result; the `query` argument
has no influence, so two runs differing only in `query` coincide. -/
theorem search_conversations_eq_get_user_conversations {α : Type} (db : ZepConversationDB)
    (user_id : String) (query query' : String) (response : Response α) :
    db.search_conversations user_id query response = db.get_user_conversations user_id response ∧
    db.search_conversations user_id query response = db.search_conversations user_id query' response :=
  ⟨rfl, rfl⟩

/-- C4: `add_message` issues exactly the request that `add_conversation_batch`
would issue on the corresponding one-element batch (same URL, same one-element
messages body, same headers and method) and returns the same result —
whatever `role_type` the batch message carries. -/
theorem add_message_eq_singleton_batch {α : Type} (db : ZepConversationDB)
    (session_id role content : String) (metadata : Option Meta) (rt : Option String)
    (response : Response α) :
    db.add_message session_id role content metadata response =
      db.add_conversation_batch session_id
        [{ role := role, content := content, metadata := metadata, role_type := rt }] response := rfl

/-- C2 counterexample: a `304 Not Modified` response has a non-2xx status,
yet `raise_for_status` does not raise for 3xx, so `create_user` returns a
normal value instead of a typed failure. -/
theorem non_2xx_not_always_error :
    ¬ (200 ≤ 304 ∧ 304 < 300) ∧
    ((ZepConversationDB.init "http://localhost:8000/api/v2" "k").create_user
        "u1" none none none none (Response.mk 304 "resp-body")).2 = Except.ok "resp-body" :=
  ⟨by decide, rfl⟩

/-- C2 (amended): every operation issues exactly one request and, when the
response status is a 4xx or 5xx, surfaces an `HTTPError` carrying the original
status code and body — never a normal return value; statuses outside 400–599
(including non-2xx ones such as 304) return normally instead. -/
theorem error_statuses_surface_http_error {α : Type} (db : ZepConversationDB)
    (user_id session_id role content fresh : String)
    (email first_name last_name : Option String) (md : Option Meta)
    (msgs : List InputMessage) (last_n : Nat)
    (resp : Response α) (ctxResp : Response ContextSnapshot)
    (h : 400 ≤ resp.status ∧ resp.status < 600)
    (hc : 400 ≤ ctxResp.status ∧ ctxResp.status < 600) :
    ((db.create_user user_id email first_name last_name md resp).2
        = Except.error ⟨resp.status, resp.body⟩ ∧
      (db.create_conversation user_id (some session_id) md fresh resp).2
        = Except.error ⟨resp.status, resp.body⟩ ∧
      (db.add_message session_id role content md resp).2
        = Except.error ⟨resp.status, resp.body⟩ ∧
      (db.add_conversation_batch session_id msgs resp).2
        = Except.error ⟨resp.status, resp.body⟩ ∧
      (db.get_conversation_context session_id last_n ctxResp).2
        = Except.error ⟨ctxResp.status, ctxResp.body⟩ ∧
      (db.get_user_conversations user_id resp).2
        = Except.error ⟨resp.status, resp.body⟩) ∧
    ((db.create_user user_id email first_name last_name md resp).1.length = 1 ∧
      (db.create_conversation user_id (some session_id) md fresh resp).1.length = 1 ∧
      (db.add_message session_id role content md resp).1.length = 1 ∧
      (db.add_conversation_batch session_id msgs resp).1.length = 1 ∧
      (db.get_conversation_context session_id last_n ctxResp).1.length = 1 ∧
      (db.get_user_conversations user_id resp).1.length = 1) := by
  refine ⟨⟨?_, ?_, ?_, ?_, ?_, ?_⟩, ⟨rfl, rfl, rfl, rfl, rfl, rfl⟩⟩ <;>
    simp [ZepConversationDB.create_user, ZepConversationDB.create_conversation,
      ZepConversationDB.add_message, ZepConversationDB.add_conversation_batch,
      ZepConversationDB.get_conversation_context, ZepConversationDB.get_user_conversations,
      raise_for_status, h, hc, Except.map]

/-- Witness for the amended C2 at status 404. -/
theorem error_statuses_surface_http_error_witness :
    let db := ZepConversationDB.init "http://localhost:8000/api/v2" "k"
    let resp : Response String := Response.mk 404 "not found"
    let ctxResp : Response ContextSnapshot := Response.mk 503 (ContextSnapshot.mk none none none)
    ((db.create_user "u1" none none none none resp).2
        = Except.error ⟨404, "not found"⟩ ∧
      (db.create_conversation "u1" (some "s1") none "ffffffff" resp).2
        = Except.error ⟨404, "not found"⟩ ∧
      (db.add_message "s1" "user" "hello" none resp).2
        = Except.error ⟨404, "not found"⟩ ∧
      (db.add_conversation_batch "s1" [] resp).2
        = Except.error ⟨404, "not found"⟩ ∧
      (db.get_conversation_context "s1" 10 ctxResp).2
        = Except.error ⟨503, ContextSnapshot.mk none none none⟩ ∧
      (db.get_user_conversations "u1" resp).2
        = Except.error ⟨404, "not found"⟩) ∧
    ((db.create_user "u1" none none none none resp).1.length = 1 ∧
      (db.create_conversation "u1" (some "s1") none "ffffffff" resp).1.length = 1 ∧
      (db.add_message "s1" "user" "hello" none resp).1.length = 1 ∧
      (db.add_conversation_batch "s1" [] resp).1.length = 1 ∧
      (db.get_conversation_context "s1" 10 ctxResp).1.length = 1 ∧
      (db.get_user_conversations "u1" resp).1.length = 1) :=
  error_statuses_surface_http_error _ "u1" "s1" "user" "hello" "ffffffff" none none none none
    [] 10 (Response.mk 404 "not found") (Response.mk 503 (ContextSnapshot.mk none none none))
    (by decide) (by decide)

/-- C5 counterexample: a caller-supplied empty-string session id is falsy in
Python, so `create_conversation` regenerates and returns a fresh id instead of
returning the supplied string unchanged. -/
theorem create_conversation_empty_sid_regenerated :
    ((ZepConversationDB.init "http://localhost:8000/api/v2" "k").create_conversation
        "u1" (some "") none "abcd1234" (Response.mk 201 ())).2 = Except.ok "conv-abcd1234" ∧
    "conv-abcd1234" ≠ "" :=
  ⟨rfl, by decide⟩

/-- C5 (amended): `create_conversation` returns exactly the session id it put
into the request body, for every non-4xx/5xx response independent of the
payload: the caller-supplied id when it is a non-empty string, and the
generated `conv-` plus fresh-hex id when the argument is omitted (`none`) or
the empty string. -/
theorem create_conversation_returns_decided_sid {α : Type} (db : ZepConversationDB)
    (user_id : String) (session_id : Option String) (md : Option Meta) (fresh : String)
    (response : Response α) (h : ¬ (400 ≤ response.status ∧ response.status < 600)) :
    (db.create_conversation user_id session_id md fresh response).2
        = Except.ok (session_id_for session_id fresh) ∧
    (∀ s, session_id = some s → s ≠ "" → session_id_for session_id fresh = s) ∧
    (session_id = none → session_id_for session_id fresh = "conv-" ++ fresh) ∧
    (session_id = some "" → session_id_for session_id fresh = "conv-" ++ fresh) ∧
    ∀ r ∈ (db.create_conversation user_id session_id md fresh response).1,
      r.body = Body.session
        { user_id := user_id, session_id := session_id_for session_id fresh
        , metadata := md.getD [] } := by
  refine ⟨?_, ?_, ?_, ?_, ?_⟩
  · simp [ZepConversationDB.create_conversation, raise_for_status, h, Except.map]
  · intro s hs hne
    subst hs
    simp [session_id_for, hne]
  · intro hs
    subst hs
    rfl
  · intro hs
    subst hs
    simp [session_id_for]
  · intro r hr
    simp only [ZepConversationDB.create_conversation, List.mem_singleton] at hr
    subst hr
    rfl

/-- Witness for the amended C5 with an omitted session id and a 201 response. -/
theorem create_conversation_returns_decided_sid_witness :
    let db := ZepConversationDB.init "http://localhost:8000/api/v2" "k"
    (db.create_conversation "u1" none none "abcd1234" (Response.mk 201 "payload")).2
        = Except.ok (session_id_for none "abcd1234") ∧
    (∀ s, (none : Option String) = some s → s ≠ "" → session_id_for none "abcd1234" = s) ∧
    ((none : Option String) = none → session_id_for none "abcd1234" = "conv-" ++ "abcd1234") ∧
    ((none : Option String) = some "" → session_id_for none "abcd1234" = "conv-" ++ "abcd1234") ∧
    ∀ r ∈ (db.create_conversation "u1" none none "abcd1234" (Response.mk 201 "payload")).1,
      r.body = Body.session
        { user_id := "u1", session_id := session_id_for none "abcd1234", metadata := [] } :=
  create_conversation_returns_decided_sid _ "u1" none none "abcd1234"
    (Response.mk 201 "payload") (by decide)

/-- C6: requesting context with a positive `last_n = k` against the
spec-modelled service yields a snapshot whose messages list never holds more
than `k` messages, and `get_conversation_context` returns that snapshot
verbatim on any non-4xx/5xx status. -/
theorem get_context_at_most_last_n (db : ZepConversationDB) (sid : String)
    (stored : List FormattedMessage) (k : Nat) (facts : List String) (summaryText : String)
    (s : Nat) (hk : 0 < k) (h : ¬ (400 ≤ s ∧ s < 600)) :
    (db.get_conversation_context sid k (Response.mk s (contextOf stored k facts summaryText))).2
        = Except.ok (contextOf stored k facts summaryText) ∧
    ((contextOf stored k facts summaryText).messages.getD []).length ≤ k := by
  constructor
  · simp [ZepConversationDB.get_conversation_context, raise_for_status, h, Except.map]
  · simp only [contextOf, Option.getD_some, List.length_drop]
    omega

/-- Witness for C6: four stored messages, `last_n = 2`, status 200. -/
theorem get_context_at_most_last_n_witness :
    let db := ZepConversationDB.init "http://localhost:8000/api/v2" "k"
    let stored : List FormattedMessage :=
      [⟨"user", "user", "a", []⟩, ⟨"assistant", "assistant", "b", []⟩,
       ⟨"user", "user", "c", []⟩, ⟨"assistant", "assistant", "d", []⟩]
    (db.get_conversation_context "s1" 2 (Response.mk 200 (contextOf stored 2 [] ""))).2
        = Except.ok (contextOf stored 2 [] "") ∧
    ((contextOf stored 2 [] "").messages.getD []).length ≤ 2 :=
  get_context_at_most_last_n _ "s1" _ 2 [] "" 200 (by decide) (by decide)

/-- C7: `get_conversation_summary` issues exactly the requests of one
`get_conversation_context` call (with the default `last_n = 10`) and builds
its result purely from that call: the same session id it was given, a message
count equal to the length of the context's messages list, the relevant facts
and context text taken from that result, and `last_updated` taken from the
local clock input `now` — for every service response. -/
theorem get_summary_from_single_context_call (db : ZepConversationDB) (sid : String)
    (c : ContextSnapshot) (s : Nat) (now : String) (h : ¬ (400 ≤ s ∧ s < 600)) :
    (db.get_conversation_summary sid (Response.mk s c) now).1
        = (db.get_conversation_context sid 10 (Response.mk s c)).1 ∧
    (db.get_conversation_summary sid (Response.mk s c) now).2
        = Except.ok
            { session_id := sid
            , message_count := (c.messages.getD []).length
            , relevant_facts := c.relevant_facts.getD []
            , context := c.context.getD ""
            , last_updated := now } := by
  constructor
  · rfl
  · simp [ZepConversationDB.get_conversation_summary,
      ZepConversationDB.get_conversation_context, raise_for_status, h, Except.map]

/-- Witness for C7 at a concrete snapshot, status 200 and clock reading. -/
theorem get_summary_from_single_context_call_witness :
    let db := ZepConversationDB.init "http://localhost:8000/api/v2" "k"
    let c : ContextSnapshot :=
      ContextSnapshot.mk (some [⟨"user", "user", "hello", []⟩]) (some ["fact1"]) (some "ctx")
    (db.get_conversation_summary "s1" (Response.mk 200 c) "2026-10-12T00:00:00").1
        = (db.get_conversation_context "s1" 10 (Response.mk 200 c)).1 ∧
    (db.get_conversation_summary "s1" (Response.mk 200 c) "2026-10-12T00:00:00").2
        = Except.ok
            { session_id := "s1"
            , message_count := (c.messages.getD []).length
            , relevant_facts := c.relevant_facts.getD []
            , context := c.context.getD ""
            , last_updated := "2026-10-12T00:00:00" } :=
  get_summary_from_single_context_call _ "s1" _ 200 "2026-10-12T00:00:00" (by decide)

/-- Appending distinct suffixes to the fixed `conv-` prefix yields distinct
generated session ids. -/
theorem conv_prefix_injective (a b : String) (h : "conv-" ++ a = "conv-" ++ b) : a = b := by
  have hd := congrArg String.data h
  simp only [String.data_append] at hd
  exact String.ext (List.append_cancel_left hd)

/-- A generated session id is never the empty string. -/
theorem conv_prefix_ne_empty (a : String) : "conv-" ++ a ≠ "" := by
  intro h
  have hd := congrArg String.length h
  rw [String.length_append] at hd
  have h5 : "conv-".length = 5 := rfl
  have h0 : "".length = 0 := rfl
  omega

/-- C8: session ids generated for omitted session-id arguments are non-empty,
and pairwise-distinct random hex suffixes (the model of `uuid.uuid4().hex[:8]`,
distinct with overwhelming probability over 1000 draws) give pairwise-distinct
generated ids. -/
theorem generated_ids_nonempty_unique (freshes : List String)
    (h : freshes.Pairwise (fun a b => a ≠ b)) :
    (freshes.map (session_id_for none)).Pairwise (fun a b => a ≠ b) ∧
    ∀ sid ∈ freshes.map (session_id_for none), sid ≠ "" := by
  constructor
  · rw [List.pairwise_map]
    refine h.imp ?_
    intro a b hab hcontra
    exact hab (conv_prefix_injective a b hcontra)
  · intro sid hsid
    rcases List.mem_map.mp hsid with ⟨a, _, rfl⟩
    exact conv_prefix_ne_empty a

/-- Witness for C8 on three distinct fresh hex strings. -/
theorem generated_ids_nonempty_unique_witness :
    ((["0a1b2c3d", "ffffffff", "00000000"].map (session_id_for none)).Pairwise
        (fun a b => a ≠ b)) ∧
    ∀ sid ∈ ["0a1b2c3d", "ffffffff", "00000000"].map (session_id_for none), sid ≠ "" :=
  generated_ids_nonempty_unique ["0a1b2c3d", "ffffffff", "00000000"] (by decide)

/-- One client call with its arguments and the service's response to its single
request (`String` bodies stand for the JSON payloads the client never
inspects). -/
inductive Op where
  | opCreateUser (user_id : String) (email first_name last_name : Option String)
      (md : Option Meta) (resp : Response String)
  | opCreateConversation (user_id : String) (session_id : Option String) (md : Option Meta)
      (fresh : String) (resp : Response String)
  | opAddMessage (session_id role content : String) (md : Option Meta) (resp : Response String)
  | opAddBatch (session_id : String) (msgs : List InputMessage) (resp : Response String)
  | opGetContext (session_id : String) (last_n : Nat) (resp : Response ContextSnapshot)
  | opGetUserConversations (user_id : String) (resp : Response String)
  | opSearchConversations (user_id query : String) (resp : Response String)
  | opGetSummary (session_id : String) (resp : Response ContextSnapshot) (now : String)

/-- Run one client call and return the client as the call leaves it together
with the requests the call issued; no method of `ZepConversationDB` assigns to
`self`, so each call leaves the client it was given. -/
def runOp (db : ZepConversationDB) (op : Op) : ZepConversationDB × List Request :=
  match op with
  | .opCreateUser uid e f l md r => (db, (db.create_user uid e f l md r).1)
  | .opCreateConversation uid sid md fresh r => (db, (db.create_conversation uid sid md fresh r).1)
  | .opAddMessage sid role content md r => (db, (db.add_message sid role content md r).1)
  | .opAddBatch sid msgs r => (db, (db.add_conversation_batch sid msgs r).1)
  | .opGetContext sid n r => (db, (db.get_conversation_context sid n r).1)
  | .opGetUserConversations uid r => (db, (db.get_user_conversations uid r).1)
  | .opSearchConversations uid q r => (db, (db.search_conversations uid q r).1)
  | .opGetSummary sid r now => (db, (db.get_conversation_summary sid r now).1)

/-- C9: the configuration fixed at construction is immutable: every sequence
of client operations leaves the client exactly as it started, and in
particular every single operation preserves `base_url` and `headers`. -/
theorem client_config_immutable (db : ZepConversationDB) (ops : List Op) :
    (ops.foldl (fun d op => (runOp d op).1) db) = db ∧
    ∀ op : Op, (runOp db op).1.base_url = db.base_url ∧ (runOp db op).1.headers = db.headers := by
  constructor
  · induction ops generalizing db with
    | nil => rfl
    | cons op rest ih =>
      have hstep : (runOp db op).1 = db := by cases op <;> rfl
      simpa [List.foldl_cons, hstep] using ih db
  · intro op
    cases op <;> exact ⟨rfl, rfl⟩

/-- C10: every messages body issued by `add_conversation_batch` or
`add_message` has `role_type` equal to `role` in each entry, and a
caller-supplied `role_type` on a batch message never influences the call. -/
theorem role_type_always_equals_role {α : Type} (db : ZepConversationDB)
    (sid role content : String) (md : Option Meta) (msgs : List InputMessage)
    (f : InputMessage → Option String) (resp : Response α) :
    (∀ r ∈ (db.add_conversation_batch sid msgs resp).1, ∀ ms, r.body = Body.messages ms →
        ∀ fm ∈ ms, fm.role_type = fm.role) ∧
    (∀ r ∈ (db.add_message sid role content md resp).1, ∀ ms, r.body = Body.messages ms →
        ∀ fm ∈ ms, fm.role_type = fm.role) ∧
    db.add_conversation_batch sid
        (msgs.map (fun m => { m with role_type := f m })) resp
      = db.add_conversation_batch sid msgs resp := by
  refine ⟨?_, ?_, ?_⟩
  · intro r hr ms hms fm hfm
    simp only [ZepConversationDB.add_conversation_batch, List.mem_singleton] at hr
    subst hr
    simp only [Body.messages.injEq] at hms
    subst hms
    rcases List.mem_map.mp hfm with ⟨m, _, rfl⟩
    rfl
  · intro r hr ms hms fm hfm
    simp only [ZepConversationDB.add_message, List.mem_singleton] at hr
    subst hr
    simp only [Body.messages.injEq] at hms
    subst hms
    rcases List.mem_singleton.mp hfm with rfl
    rfl
  · simp only [ZepConversationDB.add_conversation_batch, List.map_map]
    rfl

/-- Witness for C10 on a concrete batch carrying a caller-supplied
`role_type` that differs from `role`. -/
theorem role_type_always_equals_role_witness :
    let db := ZepConversationDB.init "http://localhost:8000/api/v2" "k"
    let msgs : List InputMessage := [⟨"user", "hello", some [("k", "v")], some "system"⟩]
    (∀ r ∈ (db.add_conversation_batch "s1" msgs (Response.mk 200 ())).1,
        ∀ ms, r.body = Body.messages ms → ∀ fm ∈ ms, fm.role_type = fm.role) ∧
    (∀ r ∈ (db.add_message "s1" "user" "hello" none (Response.mk 200 ())).1,
        ∀ ms, r.body = Body.messages ms → ∀ fm ∈ ms, fm.role_type = fm.role) ∧
    db.add_conversation_batch "s1"
        (msgs.map (fun m => { m with role_type := some "other" })) (Response.mk 200 ())
      = db.add_conversation_batch "s1" msgs (Response.mk 200 ()) :=
  role_type_always_equals_role _ "s1" "user" "hello" none _ (fun _ => some "other") _
